import Mathlib

/-!
Verification of the walk-the-dog side-scrolling platformer.
The definitions below are a shallow embedding of the Rust sources
(src/engine.rs, src/game.rs, src/segments.rs): i16 scalars become `Int`
(all quantities relevant to the proofs stay far from the i16 range),
the u8 animation frame counter becomes `Nat`, and opaque render/audio
asset handles (HtmlImageElement, Audio, Sound, SpriteSheet) are omitted
from structures or abstracted by their numeric dimensions.
-/

namespace WalkTheDog

/-- Geometry: engine.rs Point, i16 coordinates. -/
structure Point where
  x : Int
  y : Int
deriving DecidableEq, Repr

/-- Geometry: engine.rs Rect. -/
structure Rect where
  position : Point
  width : Int
  height : Int
deriving DecidableEq, Repr

def Rect.x (r : Rect) : Int := r.position.x

def Rect.y (r : Rect) : Int := r.position.y

def Rect.right (r : Rect) : Int := r.position.x + r.width

def Rect.bottom (r : Rect) : Int := r.position.y + r.height

/-- engine.rs Rect::intersects. -/
def Rect.intersects (a b : Rect) : Bool :=
  a.x < b.right && a.right > b.x && a.y < b.bottom && a.bottom > b.y

/-- engine.rs Rect::default (all fields zero). -/
def Rect.zero : Rect := ⟨⟨0, 0⟩, 0, 0⟩

-- Constants from game.rs (module level and mod red_hat_boy_states).
def HEIGHT : Int := 600
def OBSTACLE_BUFFER : Int := 20
def TIMELINE_MINIMUM : Int := 1000
def FALLING_FRAMES : Nat := 29
def FLOOR : Int := 479
def GRAVITY : Int := 1
def IDLE_FRAMES : Nat := 29
def JUMP_SPEED : Int := -25
def JUMPING_FRAMES : Nat := 35
def PLAYER_HEIGHT : Int := HEIGHT - FLOOR
def RUNNING_FRAMES : Nat := 23
def RUNNING_SPEED : Int := 4
def SLIDING_FRAMES : Nat := 14
def STARTING_POINT : Int := -20
def TERMINAL_VELOCITY : Int := 20

/-- game.rs RedHatBoyContext, minus the opaque audio handles. -/
structure RedHatBoyContext where
  frame : Nat
  position : Point
  velocity : Point
deriving DecidableEq, Repr

namespace RedHatBoyContext

/-- game.rs RedHatBoyContext::reset_frame. -/
def reset_frame (c : RedHatBoyContext) : RedHatBoyContext :=
  { c with frame := 0 }

/-- game.rs RedHatBoyContext::run_right. -/
def run_right (c : RedHatBoyContext) : RedHatBoyContext :=
  { c with velocity := { c.velocity with x := c.velocity.x + RUNNING_SPEED } }

/-- game.rs RedHatBoyContext::set_on. -/
def set_on (c : RedHatBoyContext) (position : Int) : RedHatBoyContext :=
  { c with position := { c.position with y := position - PLAYER_HEIGHT } }

/-- game.rs RedHatBoyContext::set_vertical_velocity. -/
def set_vertical_velocity (c : RedHatBoyContext) (y : Int) : RedHatBoyContext :=
  { c with velocity := { c.velocity with y := y } }

/-- game.rs RedHatBoyContext::stop. -/
def stop (c : RedHatBoyContext) : RedHatBoyContext :=
  { c with velocity := { c.velocity with x := 0 } }

/-- game.rs RedHatBoyContext::update: gravity up to the terminal cap,
frame advance with wraparound at frame_count, y integration, floor clamp. -/
def update (c : RedHatBoyContext) (frame_count : Nat) : RedHatBoyContext :=
  let vy := if c.velocity.y < TERMINAL_VELOCITY then c.velocity.y + GRAVITY
            else c.velocity.y
  let f := if c.frame < frame_count then c.frame + 1 else 0
  let py := c.position.y + vy
  let py := if py > FLOOR then FLOOR else py
  { frame := f
    position := { c.position with y := py }
    velocity := { c.velocity with y := vy } }

end RedHatBoyContext

/-- game.rs RedHatBoyStateMachine: the six typestate variants collapsed
into one sum over the shared context. -/
inductive RedHatBoyStateMachine where
  | Falling (context : RedHatBoyContext)
  | Idle (context : RedHatBoyContext)
  | Jumping (context : RedHatBoyContext)
  | KnockedOut (context : RedHatBoyContext)
  | Running (context : RedHatBoyContext)
  | Sliding (context : RedHatBoyContext)
deriving DecidableEq, Repr

/-- game.rs Event. -/
inductive Event where
  | Jump
  | KnockOut
  | Land (position : Int)
  | Run
  | Slide
  | Update
deriving DecidableEq, Repr

namespace RedHatBoyStateMachine

/-- game.rs RedHatBoyStateMachine::context. -/
def context : RedHatBoyStateMachine → RedHatBoyContext
  | .Falling c => c
  | .Idle c => c
  | .Jumping c => c
  | .KnockedOut c => c
  | .Running c => c
  | .Sliding c => c

-- Per-state transition methods from mod red_hat_boy_states.
-- play_jump_sound only touches the audio handle, so it is the identity
-- on the modelled fields.

/-- game.rs RedHatBoyState<Idle>::run. -/
def idleRun (c : RedHatBoyContext) : RedHatBoyStateMachine :=
  .Running (c.reset_frame.run_right)

/-- game.rs RedHatBoyState<Idle>::update. -/
def idleUpdate (c : RedHatBoyContext) : RedHatBoyStateMachine :=
  .Idle (c.update IDLE_FRAMES)

/-- game.rs RedHatBoyState<Falling>::update (FallingEndState collapsed). -/
def fallingUpdate (c : RedHatBoyContext) : RedHatBoyStateMachine :=
  let c := c.update FALLING_FRAMES
  if c.frame ≥ FALLING_FRAMES then .KnockedOut c else .Falling c

/-- game.rs RedHatBoyState<Jumping>::knock_out. -/
def jumpingKnockOut (c : RedHatBoyContext) : RedHatBoyStateMachine :=
  .Falling (c.reset_frame.stop)

/-- game.rs RedHatBoyState<Jumping>::land_on. -/
def jumpingLandOn (c : RedHatBoyContext) (position : Int) : RedHatBoyStateMachine :=
  .Running ((c.reset_frame).set_on position)

/-- game.rs RedHatBoyState<Jumping>::update (JumpingEndState collapsed):
integrate, then auto-land at HEIGHT once position.y reaches FLOOR. -/
def jumpingUpdate (c : RedHatBoyContext) : RedHatBoyStateMachine :=
  let c := c.update JUMPING_FRAMES
  if c.position.y ≥ FLOOR then jumpingLandOn c HEIGHT else .Jumping c

/-- game.rs RedHatBoyState<KnockedOut>::update: pin the frame to the final
falling frame, then integrate. -/
def knockedOutUpdate (c : RedHatBoyContext) : RedHatBoyStateMachine :=
  .KnockedOut (({ c with frame := FALLING_FRAMES - 1 }).update FALLING_FRAMES)

/-- game.rs RedHatBoyState<Running>::jump. -/
def runningJump (c : RedHatBoyContext) : RedHatBoyStateMachine :=
  .Jumping ((c.reset_frame).set_vertical_velocity JUMP_SPEED)

/-- game.rs RedHatBoyState<Running>::knock_out. -/
def runningKnockOut (c : RedHatBoyContext) : RedHatBoyStateMachine :=
  .Falling (c.reset_frame.stop)

/-- game.rs RedHatBoyState<Running>::land_on. -/
def runningLandOn (c : RedHatBoyContext) (position : Int) : RedHatBoyStateMachine :=
  .Running (c.set_on position)

/-- game.rs RedHatBoyState<Running>::slide. -/
def runningSlide (c : RedHatBoyContext) : RedHatBoyStateMachine :=
  .Sliding c.reset_frame

/-- game.rs RedHatBoyState<Running>::update. -/
def runningUpdate (c : RedHatBoyContext) : RedHatBoyStateMachine :=
  .Running (c.update RUNNING_FRAMES)

/-- game.rs RedHatBoyState<Sliding>::knock_out. -/
def slidingKnockOut (c : RedHatBoyContext) : RedHatBoyStateMachine :=
  .Falling (c.reset_frame.stop)

/-- game.rs RedHatBoyState<Sliding>::land_on. -/
def slidingLandOn (c : RedHatBoyContext) (position : Int) : RedHatBoyStateMachine :=
  .Sliding (c.set_on position)

/-- game.rs RedHatBoyState<Sliding>::update (SlidingEndState collapsed). -/
def slidingUpdate (c : RedHatBoyContext) : RedHatBoyStateMachine :=
  let c := c.update SLIDING_FRAMES
  if c.frame ≥ SLIDING_FRAMES then .Running c.reset_frame else .Sliding c

/-- game.rs RedHatBoyStateMachine::transition: the match arms exactly as
written, with the catch-all returning self. -/
def transition (s : RedHatBoyStateMachine) (event : Event) : RedHatBoyStateMachine :=
  match s, event with
  | .Idle c, .Run => idleRun c
  | .Idle c, .Update => idleUpdate c
  | .Falling c, .Update => fallingUpdate c
  | .Jumping c, .KnockOut => jumpingKnockOut c
  | .Jumping c, .Land position => jumpingLandOn c position
  | .Jumping c, .Update => jumpingUpdate c
  | .KnockedOut c, .Update => knockedOutUpdate c
  | .Running c, .Jump => runningJump c
  | .Running c, .KnockOut => runningKnockOut c
  | .Running c, .Land position => runningLandOn c position
  | .Running c, .Slide => runningSlide c
  | .Running c, .Update => runningUpdate c
  | .Sliding c, .KnockOut => slidingKnockOut c
  | .Sliding c, .Land position => slidingLandOn c position
  | .Sliding c, .Update => slidingUpdate c
  | _, _ => s

/-- Whether a (state, event) pair is one of the fifteen explicitly listed
arms of the transition table. -/
def handled : RedHatBoyStateMachine → Event → Bool
  | .Idle _, .Run => true
  | .Idle _, .Update => true
  | .Falling _, .Update => true
  | .Jumping _, .KnockOut => true
  | .Jumping _, .Land _ => true
  | .Jumping _, .Update => true
  | .KnockedOut _, .Update => true
  | .Running _, .Jump => true
  | .Running _, .KnockOut => true
  | .Running _, .Land _ => true
  | .Running _, .Slide => true
  | .Running _, .Update => true
  | .Sliding _, .KnockOut => true
  | .Sliding _, .Land _ => true
  | .Sliding _, .Update => true
  | _, _ => false

end RedHatBoyStateMachine

/-- State names, used to talk about which variant a machine value is in. -/
inductive StateTag where
  | Falling
  | Idle
  | Jumping
  | KnockedOut
  | Running
  | Sliding
deriving DecidableEq, Repr

namespace RedHatBoyStateMachine

/-- The y component of the velocity held in the active context. -/
def velY (s : RedHatBoyStateMachine) : Int := s.context.velocity.y

/-- The y component of the position held in the active context. -/
def posY (s : RedHatBoyStateMachine) : Int := s.context.position.y

/-- The animation frame counter held in the active context. -/
def frame (s : RedHatBoyStateMachine) : Nat := s.context.frame

/-- The variant a machine value is in. -/
def tag : RedHatBoyStateMachine → StateTag
  | .Falling _ => .Falling
  | .Idle _ => .Idle
  | .Jumping _ => .Jumping
  | .KnockedOut _ => .KnockedOut
  | .Running _ => .Running
  | .Sliding _ => .Sliding

end RedHatBoyStateMachine

/-- The context built by game.rs RedHatBoyState<Idle>::new. -/
def initialContext : RedHatBoyContext :=
  { frame := 0
    position := { x := STARTING_POINT, y := FLOOR }
    velocity := { x := 0, y := 0 } }

/-- The machine built by game.rs RedHatBoy::new: Idle over the freshly
constructed context. -/
def initialMachine : RedHatBoyStateMachine := .Idle initialContext

/-- Iterated Update events pushed through the state machine. -/
def applyUpdates : Nat → RedHatBoyStateMachine → RedHatBoyStateMachine
  | 0, s => s
  | n + 1, s => applyUpdates n (s.transition .Update)

/-- The states reachable from the freshly constructed machine by any
sequence of events. -/
inductive Reachable : RedHatBoyStateMachine → Prop where
  | init : Reachable initialMachine
  | step {s : RedHatBoyStateMachine} (e : Event) :
      Reachable s → Reachable (s.transition e)

/-- game.rs Platform: the visual sheet handle is omitted; only the shifted
bounding boxes and the position survive into the model. -/
structure Platform where
  bounding_boxes : List Rect
  position : Point
deriving DecidableEq, Repr

/-- game.rs Platform::new: each given box is shifted by the position. -/
def Platform.new (bounding_boxes : List Rect) (position : Point) : Platform :=
  { bounding_boxes := bounding_boxes.map fun bounding_box =>
      ⟨⟨bounding_box.x + position.x, bounding_box.y + position.y⟩,
        bounding_box.width, bounding_box.height⟩
    position := position }

/-- game.rs Platform::right (Obstacle impl): the right edge of the last
bounding box, or of the default Rect when there is none. -/
def Platform.right (p : Platform) : Int :=
  (p.bounding_boxes.getLast?.getD Rect.zero).right

/-- game.rs Platform::check_intersection (Obstacle impl). The boy is
abstracted by its collision bounding box plus the velocity.y and
position.y read off its context; the fired event (if any) is returned
instead of being pushed into the boy. -/
def Platform.check_intersection (p : Platform) (boyBox : Rect)
    (boyVelocityY boyPosY : Int) : Option Event :=
  match p.bounding_boxes.find? fun bounding_box => boyBox.intersects bounding_box with
  | some box_to_land_on =>
      if boyVelocityY > 0 ∧ boyPosY < p.position.y then
        some (.Land box_to_land_on.y)
      else
        some .KnockOut
  | none => none

/-- game.rs Barrier::check_intersection (Obstacle impl): any overlap with
the barrier image box fires KnockOut. -/
def Barrier.check_intersection (barrierBox boyBox : Rect) : Option Event :=
  if boyBox.intersects barrierBox then some .KnockOut else none

/-- game.rs Obstacle trait objects: a Barrier holds the bounding box of
its image; a Platform holds its shifted boxes and position. -/
inductive Obstacle where
  | barrier (bounding_box : Rect)
  | platform (p : Platform)
deriving DecidableEq, Repr

/-- Obstacle::right dispatch. -/
def Obstacle.right : Obstacle → Int
  | .barrier bounding_box => bounding_box.right
  | .platform p => p.right

/-- game.rs rightmost: the largest right edge in the list, 0 if empty. -/
def rightmost (obstacle_list : List Obstacle) : Int :=
  ((obstacle_list.map Obstacle.right).max?).getD 0

-- Constants from segments.rs.
def FIRST_PLATFORM : Int := 400
def LOW_PLATFORM : Int := 420
def HIGH_PLATFORM : Int := 375
def INITIAL_STONE_OFFSET : Int := 150
def STONE_ON_GROUND : Int := 546

/-- segments.rs FLOATING_PLATFORM_BOUNDING_BOXES. -/
def FLOATING_PLATFORM_BOUNDING_BOXES : List Rect :=
  [ ⟨⟨0, 0⟩, 60, 54⟩,
    ⟨⟨60, 0⟩, 384 - 60 * 2, 93⟩,
    ⟨⟨384 - 60, 0⟩, 60, 54⟩ ]

/-- segments.rs create_floating_platform. -/
def create_floating_platform (position : Point) : Platform :=
  Platform.new FLOATING_PLATFORM_BOUNDING_BOXES position

/-- segments.rs stone_and_platform. The stone image dimensions are the
only data the model keeps of the HtmlImageElement. -/
def stone_and_platform (offset_x stoneWidth stoneHeight : Int) : List Obstacle :=
  [ .barrier ⟨⟨offset_x + INITIAL_STONE_OFFSET, STONE_ON_GROUND⟩,
      stoneWidth, stoneHeight⟩,
    .platform (create_floating_platform
      ⟨offset_x + FIRST_PLATFORM, LOW_PLATFORM⟩) ]

/-- segments.rs platform_and_stone. -/
def platform_and_stone (offset_x stoneWidth stoneHeight : Int) : List Obstacle :=
  [ .barrier ⟨⟨offset_x + INITIAL_STONE_OFFSET, STONE_ON_GROUND⟩,
      stoneWidth, stoneHeight⟩,
    .platform (create_floating_platform
      ⟨offset_x + FIRST_PLATFORM, HIGH_PLATFORM⟩) ]

/-- game.rs Walk: backgrounds and sheet handles are omitted; the stone
image survives as its dimensions, used when new segments are generated. -/
structure Walk where
  boy : RedHatBoyStateMachine
  obstacles : List Obstacle
  timeline : Int
  stoneWidth : Int
  stoneHeight : Int
deriving DecidableEq, Repr

/-- The obstacle list built inside Walk::generate_next_segment for a given
draw of rng.gen_range(0..2). -/
def next_segment_obstacles (timeline : Int) (choice : Nat)
    (stoneWidth stoneHeight : Int) : List Obstacle :=
  match choice with
  | 0 => stone_and_platform (timeline + OBSTACLE_BUFFER) stoneWidth stoneHeight
  | 1 => platform_and_stone (timeline + OBSTACLE_BUFFER) stoneWidth stoneHeight
  | _ => []

/-- game.rs Walk::generate_next_segment, with the random draw passed in:
the timeline advances to the rightmost edge of the new obstacles and the
new obstacles are appended. -/
def Walk.generate_next_segment (w : Walk) (choice : Nat) : Walk :=
  let next_obstacles :=
    next_segment_obstacles w.timeline choice w.stoneWidth w.stoneHeight
  { w with
    timeline := rightmost next_obstacles
    obstacles := w.obstacles ++ next_obstacles }

/-- game.rs RedHatBoy::reset: RedHatBoy::new over the same assets, so the
machine part is the fresh Idle state again. -/
def RedHatBoy.reset (_boy : RedHatBoyStateMachine) : RedHatBoyStateMachine :=
  initialMachine

/-- game.rs Walk::reset: fresh starting segment at offset 0, reset boy,
timeline at the rightmost edge of the starting obstacles. -/
def Walk.reset (walk : Walk) : Walk :=
  let starting_obstacles :=
    stone_and_platform 0 walk.stoneWidth walk.stoneHeight
  { boy := RedHatBoy.reset walk.boy
    obstacles := starting_obstacles
    timeline := rightmost starting_obstacles
    stoneWidth := walk.stoneWidth
    stoneHeight := walk.stoneHeight }

/-- The Walk built by WalkTheDog::initialize at session start. -/
def initialWalk (stoneWidth stoneHeight : Int) : Walk :=
  { boy := initialMachine
    obstacles := stone_and_platform 0 stoneWidth stoneHeight
    timeline := rightmost (stone_and_platform 0 stoneWidth stoneHeight)
    stoneWidth := stoneWidth
    stoneHeight := stoneHeight }

/-- game.rs WalkTheDogStateMachine (session states over the owned Walk). -/
inductive WalkTheDogStateMachine where
  | Ready (walk : Walk)
  | Walking (walk : Walk)
  | GameOver (walk : Walk)
deriving DecidableEq, Repr

/-- game.rs WalkTheDogState<GameOver>::new_game: a Ready state over the
reset Walk (browser::hide_ui is render-only and dropped). -/
def gameOverNewGame (walk : Walk) : WalkTheDogStateMachine :=
  .Ready (Walk.reset walk)

/-- engine.rs FRAME_SIZE, f32 arithmetic idealized as exact rationals. -/
def FRAME_SIZE : ℚ := 1 / 60 * 1000

/-- engine.rs GameLoop::start inner loop: while the accumulator strictly
exceeds FRAME_SIZE, run one logical update and subtract FRAME_SIZE.
Returns how many updates ran and the residual accumulator. -/
def gameLoopDrain (accumulated_delta : ℚ) : Nat × ℚ :=
  if FRAME_SIZE < accumulated_delta then
    let rest := gameLoopDrain (accumulated_delta - FRAME_SIZE)
    (rest.1 + 1, rest.2)
  else
    (0, accumulated_delta)
termination_by (⌈accumulated_delta / FRAME_SIZE⌉).toNat
decreasing_by
  have hF : (0 : ℚ) < FRAME_SIZE := by norm_num [FRAME_SIZE]
  have h1 : (1 : ℚ) < accumulated_delta / FRAME_SIZE :=
    (one_lt_div hF).mpr (by assumption)
  have h2 : (1 : ℤ) < ⌈accumulated_delta / FRAME_SIZE⌉ :=
    Int.lt_ceil.mpr (by exact_mod_cast h1)
  have h3 : (accumulated_delta - FRAME_SIZE) / FRAME_SIZE =
      accumulated_delta / FRAME_SIZE - 1 := by
    field_simp
  simp only [h3, Int.ceil_sub_one]
  omega

theorem applyUpdates_succ_right (n : Nat) (s : RedHatBoyStateMachine) :
    applyUpdates (n + 1) s = (applyUpdates n s).transition .Update := by
  induction n generalizing s with
  | zero => rfl
  | succ n ih => rw [applyUpdates, ih, applyUpdates]

namespace RedHatBoyContext

@[simp] theorem reset_frame_frame (c : RedHatBoyContext) :
    c.reset_frame.frame = 0 := rfl

@[simp] theorem reset_frame_position (c : RedHatBoyContext) :
    c.reset_frame.position = c.position := rfl

@[simp] theorem reset_frame_velocity (c : RedHatBoyContext) :
    c.reset_frame.velocity = c.velocity := rfl

@[simp] theorem run_right_frame (c : RedHatBoyContext) :
    c.run_right.frame = c.frame := rfl

@[simp] theorem run_right_position (c : RedHatBoyContext) :
    c.run_right.position = c.position := rfl

@[simp] theorem run_right_velocity_x (c : RedHatBoyContext) :
    c.run_right.velocity.x = c.velocity.x + RUNNING_SPEED := rfl

@[simp] theorem run_right_velocity_y (c : RedHatBoyContext) :
    c.run_right.velocity.y = c.velocity.y := rfl

@[simp] theorem set_on_frame (c : RedHatBoyContext) (p : Int) :
    (c.set_on p).frame = c.frame := rfl

@[simp] theorem set_on_position_x (c : RedHatBoyContext) (p : Int) :
    (c.set_on p).position.x = c.position.x := rfl

@[simp] theorem set_on_position_y (c : RedHatBoyContext) (p : Int) :
    (c.set_on p).position.y = p - PLAYER_HEIGHT := rfl

@[simp] theorem set_on_velocity (c : RedHatBoyContext) (p : Int) :
    (c.set_on p).velocity = c.velocity := rfl

@[simp] theorem set_vertical_velocity_frame (c : RedHatBoyContext) (y : Int) :
    (c.set_vertical_velocity y).frame = c.frame := rfl

@[simp] theorem set_vertical_velocity_position (c : RedHatBoyContext) (y : Int) :
    (c.set_vertical_velocity y).position = c.position := rfl

@[simp] theorem set_vertical_velocity_velocity_y (c : RedHatBoyContext) (y : Int) :
    (c.set_vertical_velocity y).velocity.y = y := rfl

@[simp] theorem stop_frame (c : RedHatBoyContext) : c.stop.frame = c.frame := rfl

@[simp] theorem stop_position (c : RedHatBoyContext) :
    c.stop.position = c.position := rfl

@[simp] theorem stop_velocity_y (c : RedHatBoyContext) :
    c.stop.velocity.y = c.velocity.y := rfl

@[simp] theorem update_frame (c : RedHatBoyContext) (fc : Nat) :
    (c.update fc).frame = if c.frame < fc then c.frame + 1 else 0 := rfl

@[simp] theorem update_velocity_x (c : RedHatBoyContext) (fc : Nat) :
    (c.update fc).velocity.x = c.velocity.x := rfl

@[simp] theorem update_velocity_y (c : RedHatBoyContext) (fc : Nat) :
    (c.update fc).velocity.y =
      if c.velocity.y < TERMINAL_VELOCITY then c.velocity.y + GRAVITY
      else c.velocity.y := rfl

@[simp] theorem update_position_x (c : RedHatBoyContext) (fc : Nat) :
    (c.update fc).position.x = c.position.x := rfl

theorem update_position_y (c : RedHatBoyContext) (fc : Nat) :
    (c.update fc).position.y =
      if c.position.y + (c.update fc).velocity.y > FLOOR then FLOOR
      else c.position.y + (c.update fc).velocity.y := rfl

theorem update_velY_le (c : RedHatBoyContext) (fc : Nat)
    (h : c.velocity.y ≤ TERMINAL_VELOCITY) :
    (c.update fc).velocity.y ≤ TERMINAL_VELOCITY := by
  rw [update_velocity_y]
  split <;> simp [TERMINAL_VELOCITY, GRAVITY] at * <;> omega

end RedHatBoyContext

namespace RedHatBoyStateMachine

@[simp] theorem context_Falling (c : RedHatBoyContext) :
    (Falling c).context = c := rfl

@[simp] theorem context_Idle (c : RedHatBoyContext) :
    (Idle c).context = c := rfl

@[simp] theorem context_Jumping (c : RedHatBoyContext) :
    (Jumping c).context = c := rfl

@[simp] theorem context_KnockedOut (c : RedHatBoyContext) :
    (KnockedOut c).context = c := rfl

@[simp] theorem context_Running (c : RedHatBoyContext) :
    (Running c).context = c := rfl

@[simp] theorem context_Sliding (c : RedHatBoyContext) :
    (Sliding c).context = c := rfl

@[simp] theorem context_ite (b : Prop) [Decidable b]
    (x y : RedHatBoyStateMachine) :
    (if b then x else y).context = if b then x.context else y.context :=
  apply_ite context b x y

end RedHatBoyStateMachine

@[simp] theorem RedHatBoyContext.velocity_ite (b : Prop) [Decidable b]
    (x y : RedHatBoyContext) :
    (if b then x else y).velocity = if b then x.velocity else y.velocity :=
  apply_ite RedHatBoyContext.velocity b x y

@[simp] theorem RedHatBoyContext.position_ite (b : Prop) [Decidable b]
    (x y : RedHatBoyContext) :
    (if b then x else y).position = if b then x.position else y.position :=
  apply_ite RedHatBoyContext.position b x y

@[simp] theorem RedHatBoyContext.frame_ite (b : Prop) [Decidable b]
    (x y : RedHatBoyContext) :
    (if b then x else y).frame = if b then x.frame else y.frame :=
  apply_ite RedHatBoyContext.frame b x y

@[simp] theorem Point.x_ite (b : Prop) [Decidable b] (u v : Point) :
    (if b then u else v).x = if b then u.x else v.x :=
  apply_ite Point.x b u v

@[simp] theorem Point.y_ite (b : Prop) [Decidable b] (u v : Point) :
    (if b then u else v).y = if b then u.y else v.y :=
  apply_ite Point.y b u v

theorem transition_velY_le (s : RedHatBoyStateMachine) (e : Event)
    (h : s.velY ≤ TERMINAL_VELOCITY) :
    (s.transition e).velY ≤ TERMINAL_VELOCITY := by
  cases s <;> cases e <;>
    simp_all only [RedHatBoyStateMachine.transition, RedHatBoyStateMachine.velY,
      RedHatBoyStateMachine.idleRun, RedHatBoyStateMachine.idleUpdate,
      RedHatBoyStateMachine.fallingUpdate, RedHatBoyStateMachine.jumpingKnockOut,
      RedHatBoyStateMachine.jumpingLandOn, RedHatBoyStateMachine.jumpingUpdate,
      RedHatBoyStateMachine.knockedOutUpdate, RedHatBoyStateMachine.runningJump,
      RedHatBoyStateMachine.runningKnockOut, RedHatBoyStateMachine.runningLandOn,
      RedHatBoyStateMachine.runningSlide, RedHatBoyStateMachine.runningUpdate,
      RedHatBoyStateMachine.slidingKnockOut, RedHatBoyStateMachine.slidingLandOn,
      RedHatBoyStateMachine.slidingUpdate,
      RedHatBoyStateMachine.context_Falling, RedHatBoyStateMachine.context_Idle,
      RedHatBoyStateMachine.context_Jumping,
      RedHatBoyStateMachine.context_KnockedOut,
      RedHatBoyStateMachine.context_Running,
      RedHatBoyStateMachine.context_Sliding,
      RedHatBoyStateMachine.context_ite,
      RedHatBoyContext.reset_frame_velocity, RedHatBoyContext.run_right_velocity_y,
      RedHatBoyContext.set_on_velocity, RedHatBoyContext.stop_velocity_y,
      RedHatBoyContext.set_vertical_velocity_velocity_y,
      RedHatBoyContext.update_velocity_y, RedHatBoyContext.velocity_ite,
      Point.y_ite, TERMINAL_VELOCITY, GRAVITY, JUMP_SPEED] <;>
  omega

theorem reachable_velY_le {s : RedHatBoyStateMachine} (h : Reachable s) :
    s.velY ≤ TERMINAL_VELOCITY := by
  induction h with
  | init => simp [initialMachine, initialContext, RedHatBoyStateMachine.velY,
      RedHatBoyStateMachine.context, TERMINAL_VELOCITY]
  | step e _ ih => exact transition_velY_le _ e ih

theorem reachable_applyUpdates {s : RedHatBoyStateMachine} (n : Nat)
    (h : Reachable s) : Reachable (applyUpdates n s) := by
  induction n generalizing s with
  | zero => exact h
  | succ n ih => exact ih (Reachable.step .Update h)

/-- C2: from every reachable character state, after any number N of Update
events the y velocity in the context never exceeds the terminal velocity
constant (20). -/
theorem velocity_never_exceeds_terminal (s : RedHatBoyStateMachine)
    (h : Reachable s) (n : Nat) :
    (applyUpdates n s).velY ≤ TERMINAL_VELOCITY :=
  reachable_velY_le (reachable_applyUpdates n h)

/-- Witness for C2: three updates from the fresh machine keep the y
velocity at or below the terminal cap. -/
theorem velocity_never_exceeds_terminal_witness :
    Reachable initialMachine ∧
    (applyUpdates 3 initialMachine).velY ≤ TERMINAL_VELOCITY :=
  ⟨Reachable.init, velocity_never_exceeds_terminal _ Reachable.init 3⟩

namespace RedHatBoyStateMachine

@[simp] theorem tag_Falling (c : RedHatBoyContext) : (Falling c).tag = .Falling := rfl

@[simp] theorem tag_Idle (c : RedHatBoyContext) : (Idle c).tag = .Idle := rfl

@[simp] theorem tag_Jumping (c : RedHatBoyContext) : (Jumping c).tag = .Jumping := rfl

@[simp] theorem tag_KnockedOut (c : RedHatBoyContext) :
    (KnockedOut c).tag = .KnockedOut := rfl

@[simp] theorem tag_Running (c : RedHatBoyContext) : (Running c).tag = .Running := rfl

@[simp] theorem tag_Sliding (c : RedHatBoyContext) : (Sliding c).tag = .Sliding := rfl

@[simp] theorem tag_ite (b : Prop) [Decidable b] (x y : RedHatBoyStateMachine) :
    (if b then x else y).tag = if b then x.tag else y.tag :=
  apply_ite tag b x y

end RedHatBoyStateMachine

theorem sliding_transition_of_lt (c : RedHatBoyContext)
    (h : c.frame + 1 < SLIDING_FRAMES) :
    (RedHatBoyStateMachine.Sliding c).transition .Update =
      .Sliding (c.update SLIDING_FRAMES) := by
  have hlt : c.frame < SLIDING_FRAMES := by omega
  have hno : ¬ ((c.update SLIDING_FRAMES).frame ≥ SLIDING_FRAMES) := by
    rw [RedHatBoyContext.update_frame, if_pos hlt]; omega
  simp only [RedHatBoyStateMachine.transition, RedHatBoyStateMachine.slidingUpdate]
  rw [if_neg hno]

theorem sliding_applyUpdates (k : Nat) (c : RedHatBoyContext)
    (h : c.frame + k < SLIDING_FRAMES) :
    ∃ c₂, applyUpdates k (.Sliding c) = .Sliding c₂ ∧ c₂.frame = c.frame + k := by
  induction k generalizing c with
  | zero => exact ⟨c, rfl, rfl⟩
  | succ k ih =>
    have hstep := sliding_transition_of_lt c (by omega)
    have hframe : (c.update SLIDING_FRAMES).frame = c.frame + 1 := by
      rw [RedHatBoyContext.update_frame, if_pos (by omega)]
    obtain ⟨c₂, h1, h2⟩ := ih (c.update SLIDING_FRAMES) (by omega)
    exact ⟨c₂, by rw [applyUpdates, hstep, h1], by omega⟩

/-- C9: a freshly entered Sliding state (frame 0) is still Sliding after
one fewer than the sliding frame count Update events, and is Running
after exactly the sliding frame count Update events. -/
theorem sliding_exact_frame_count (c : RedHatBoyContext) (h : c.frame = 0) :
    (applyUpdates (SLIDING_FRAMES - 1) (.Sliding c)).tag = .Sliding ∧
    (applyUpdates SLIDING_FRAMES (.Sliding c)).tag = .Running := by
  obtain ⟨c₂, h1, h2⟩ :=
    sliding_applyUpdates (SLIDING_FRAMES - 1) c
      (by simp only [SLIDING_FRAMES]; omega)
  have h14 : SLIDING_FRAMES = SLIDING_FRAMES - 1 + 1 := by
    simp only [SLIDING_FRAMES]
  refine ⟨by rw [h1]; rfl, ?_⟩
  rw [h14, applyUpdates_succ_right, h1]
  have hlt : c₂.frame < SLIDING_FRAMES := by
    simp only [SLIDING_FRAMES] at *; omega
  have hyes : (c₂.update SLIDING_FRAMES).frame ≥ SLIDING_FRAMES := by
    rw [RedHatBoyContext.update_frame, if_pos hlt]
    simp only [SLIDING_FRAMES] at *; omega
  simp only [RedHatBoyStateMachine.transition, RedHatBoyStateMachine.slidingUpdate]
  rw [if_pos hyes]
  rfl

/-- Witness for C9: the fresh context slides for 13 updates and stands on
the 14th. -/
theorem sliding_exact_frame_count_witness :
    initialContext.frame = 0 ∧
    (applyUpdates (SLIDING_FRAMES - 1) (.Sliding initialContext)).tag = .Sliding ∧
    (applyUpdates SLIDING_FRAMES (.Sliding initialContext)).tag = .Running :=
  ⟨rfl, (sliding_exact_frame_count initialContext rfl).1,
    (sliding_exact_frame_count initialContext rfl).2⟩

/-- Counterexample for C4: the auto-transition out of Falling into
KnockedOut (a state-entering transition) does not reset the frame counter:
from a Falling state with frame 28 one Update enters KnockedOut with
frame 29, not 0. -/
theorem frame_reset_on_entry_counterexample :
    ((RedHatBoyStateMachine.Falling ⟨28, ⟨0, FLOOR⟩, ⟨0, 20⟩⟩).transition
        .Update).tag = .KnockedOut ∧
    (RedHatBoyStateMachine.Falling ⟨28, ⟨0, FLOOR⟩, ⟨0, 20⟩⟩).tag ≠ .KnockedOut ∧
    ((RedHatBoyStateMachine.Falling ⟨28, ⟨0, FLOOR⟩, ⟨0, 20⟩⟩).transition
        .Update).frame ≠ 0 := by
  decide

/-- C4 amended: on every state-entering transition except the
Falling-to-KnockedOut auto-transition (which preserves the frame counter),
the frame counter is reset to 0; and each context update advances the
frame by one until it reaches the frame count parameter, at which point it
wraps to 0. -/
theorem frame_reset_on_entry_amended :
    (∀ (s : RedHatBoyStateMachine) (e : Event),
        (s.transition e).tag ≠ s.tag → s.tag ≠ .Falling →
        (s.transition e).frame = 0) ∧
    (∀ (c : RedHatBoyContext) (fc : Nat),
        (c.update fc).frame = if c.frame < fc then c.frame + 1 else 0) := by
  refine ⟨?_, fun c fc => rfl⟩
  intro s e h1 h2
  cases s <;> cases e <;>
    simp_all [RedHatBoyStateMachine.transition, RedHatBoyStateMachine.frame,
      RedHatBoyStateMachine.idleRun, RedHatBoyStateMachine.idleUpdate,
      RedHatBoyStateMachine.fallingUpdate, RedHatBoyStateMachine.jumpingKnockOut,
      RedHatBoyStateMachine.jumpingLandOn, RedHatBoyStateMachine.jumpingUpdate,
      RedHatBoyStateMachine.knockedOutUpdate, RedHatBoyStateMachine.runningJump,
      RedHatBoyStateMachine.runningKnockOut, RedHatBoyStateMachine.runningLandOn,
      RedHatBoyStateMachine.runningSlide, RedHatBoyStateMachine.runningUpdate,
      RedHatBoyStateMachine.slidingKnockOut, RedHatBoyStateMachine.slidingLandOn,
      RedHatBoyStateMachine.slidingUpdate]

/-- Witness for C4 amended: the Run event out of Idle enters Running with
frame 0. -/
theorem frame_reset_on_entry_amended_witness :
    (((RedHatBoyStateMachine.Idle ⟨7, ⟨0, FLOOR⟩, ⟨0, 0⟩⟩).transition .Run).tag ≠
        (RedHatBoyStateMachine.Idle ⟨7, ⟨0, FLOOR⟩, ⟨0, 0⟩⟩).tag) ∧
    ((RedHatBoyStateMachine.Idle ⟨7, ⟨0, FLOOR⟩, ⟨0, 0⟩⟩).tag ≠ .Falling) ∧
    ((RedHatBoyStateMachine.Idle ⟨7, ⟨0, FLOOR⟩, ⟨0, 0⟩⟩).transition .Run).frame = 0 :=
  ⟨by decide, by decide,
    frame_reset_on_entry_amended.1 _ .Run (by decide) (by decide)⟩

/-- Counterexample for C3: starting a jump from the grounded Running state
and applying Update repeatedly, the machine is still Jumping after 49
updates and lands on the 50th; the landing position.y is the floor
constant itself (479), not floor minus player height (358) as claimed. -/
theorem jump_landing_counterexample :
    (applyUpdates 49
        ((RedHatBoyStateMachine.Running ⟨0, ⟨-20, FLOOR⟩, ⟨4, 0⟩⟩).transition
          .Jump)).tag = .Jumping ∧
    (applyUpdates 50
        ((RedHatBoyStateMachine.Running ⟨0, ⟨-20, FLOOR⟩, ⟨4, 0⟩⟩).transition
          .Jump)).tag = .Running ∧
    (applyUpdates 50
        ((RedHatBoyStateMachine.Running ⟨0, ⟨-20, FLOOR⟩, ⟨4, 0⟩⟩).transition
          .Jump)).posY = FLOOR ∧
    ¬ (applyUpdates 50
        ((RedHatBoyStateMachine.Running ⟨0, ⟨-20, FLOOR⟩, ⟨4, 0⟩⟩).transition
          .Jump)).posY = FLOOR - PLAYER_HEIGHT := by
  decide

/-- C3 amended: when an Update on a Jumping state integrates to a
position.y at or past the floor constant, the machine auto-transitions to
Running with position.y exactly the floor constant (which equals screen
height minus player height) with no overshoot; otherwise it stays
Jumping strictly above the floor. -/
theorem jumping_lands_exactly_on_floor (c : RedHatBoyContext) :
    ((c.update JUMPING_FRAMES).position.y ≥ FLOOR →
      ((RedHatBoyStateMachine.Jumping c).transition .Update).tag = .Running ∧
      ((RedHatBoyStateMachine.Jumping c).transition .Update).posY = FLOOR ∧
      FLOOR = HEIGHT - PLAYER_HEIGHT) ∧
    (¬ (c.update JUMPING_FRAMES).position.y ≥ FLOOR →
      ((RedHatBoyStateMachine.Jumping c).transition .Update).tag = .Jumping ∧
      ((RedHatBoyStateMachine.Jumping c).transition .Update).posY < FLOOR) := by
  constructor
  · intro h
    simp only [RedHatBoyStateMachine.transition, RedHatBoyStateMachine.jumpingUpdate]
    rw [if_pos h]
    refine ⟨rfl, ?_, by decide⟩
    simp only [RedHatBoyStateMachine.jumpingLandOn, RedHatBoyStateMachine.posY,
      RedHatBoyStateMachine.context_Running, RedHatBoyContext.set_on_position_y,
      PLAYER_HEIGHT, HEIGHT, FLOOR]
    omega
  · intro h
    simp only [RedHatBoyStateMachine.transition, RedHatBoyStateMachine.jumpingUpdate]
    rw [if_neg h]
    exact ⟨rfl, by simp only [RedHatBoyStateMachine.posY,
      RedHatBoyStateMachine.context_Jumping]; omega⟩

/-- Witness for C3 amended: a jumping context one pixel above the floor
and already descending lands exactly on the floor in one update. -/
theorem jumping_lands_exactly_on_floor_witness :
    ((⟨0, ⟨0, 478⟩, ⟨0, 20⟩⟩ : RedHatBoyContext).update
        JUMPING_FRAMES).position.y ≥ FLOOR ∧
    ((RedHatBoyStateMachine.Jumping ⟨0, ⟨0, 478⟩, ⟨0, 20⟩⟩).transition
        .Update).tag = .Running ∧
    ((RedHatBoyStateMachine.Jumping ⟨0, ⟨0, 478⟩, ⟨0, 20⟩⟩).transition
        .Update).posY = FLOOR :=
  ⟨by decide,
    ((jumping_lands_exactly_on_floor ⟨0, ⟨0, 478⟩, ⟨0, 20⟩⟩).1 (by decide)).1,
    ((jumping_lands_exactly_on_floor ⟨0, ⟨0, 478⟩, ⟨0, 20⟩⟩).1 (by decide)).2.1⟩

/-- Counterexample for C10: a state with position.y equal to the floor
constant need not satisfy the claim: the Jumping state produced by a jump
launched from grounded Running sits at the floor, yet after one Update its
y velocity is negative (still rising) and its position leaves the floor. -/
theorem grounded_descending_counterexample :
    (((RedHatBoyStateMachine.Running ⟨0, ⟨-20, FLOOR⟩, ⟨4, 0⟩⟩).transition
        .Jump)).posY = FLOOR ∧
    ¬ (applyUpdates 1
        ((RedHatBoyStateMachine.Running ⟨0, ⟨-20, FLOOR⟩, ⟨4, 0⟩⟩).transition
          .Jump)).velY > 0 ∧
    ¬ (applyUpdates 1
        ((RedHatBoyStateMachine.Running ⟨0, ⟨-20, FLOOR⟩, ⟨4, 0⟩⟩).transition
          .Jump)).posY = FLOOR := by
  decide

theorem update_step_grounded (s : RedHatBoyStateMachine)
    (hp : s.posY = FLOOR) (hv : s.velY ≥ 0) :
    (s.transition .Update).posY = FLOOR ∧ (s.transition .Update).velY > 0 := by
  cases s <;>
    simp_all only [RedHatBoyStateMachine.transition, RedHatBoyStateMachine.posY,
      RedHatBoyStateMachine.velY,
      RedHatBoyStateMachine.idleUpdate, RedHatBoyStateMachine.fallingUpdate,
      RedHatBoyStateMachine.jumpingUpdate, RedHatBoyStateMachine.jumpingLandOn,
      RedHatBoyStateMachine.knockedOutUpdate, RedHatBoyStateMachine.runningUpdate,
      RedHatBoyStateMachine.slidingUpdate,
      RedHatBoyStateMachine.context_Falling, RedHatBoyStateMachine.context_Idle,
      RedHatBoyStateMachine.context_Jumping,
      RedHatBoyStateMachine.context_KnockedOut,
      RedHatBoyStateMachine.context_Running,
      RedHatBoyStateMachine.context_Sliding,
      RedHatBoyStateMachine.context_ite,
      RedHatBoyContext.velocity_ite, RedHatBoyContext.position_ite,
      Point.x_ite, Point.y_ite,
      RedHatBoyContext.reset_frame_position, RedHatBoyContext.reset_frame_velocity,
      RedHatBoyContext.set_on_position_y, RedHatBoyContext.set_on_velocity,
      RedHatBoyContext.update_velocity_y, RedHatBoyContext.update_position_y,
      FLOOR, TERMINAL_VELOCITY, GRAVITY, PLAYER_HEIGHT, HEIGHT] <;>
    split_ifs <;> omega

theorem grounded_applyUpdates (k : Nat) (s : RedHatBoyStateMachine)
    (hp : s.posY = FLOOR) (hv : s.velY > 0) :
    (applyUpdates k s).posY = FLOOR ∧ (applyUpdates k s).velY > 0 := by
  induction k generalizing s with
  | zero => exact ⟨hp, hv⟩
  | succ k ih =>
    obtain ⟨h1, h2⟩ := update_step_grounded s hp (le_of_lt hv)
    exact ih (s.transition .Update) h1 h2

/-- C10 amended: for every character state at the floor whose y velocity
is nonnegative (which excludes a freshly launched jump), after at least
one Update event the y velocity is strictly positive — the descending half
of the platform landing condition — while position.y stays clamped at the
floor constant. -/
theorem grounded_always_descending (s : RedHatBoyStateMachine) (n : Nat)
    (hp : s.posY = FLOOR) (hv : s.velY ≥ 0) (hn : 1 ≤ n) :
    (applyUpdates n s).velY > 0 ∧ (applyUpdates n s).posY = FLOOR := by
  obtain ⟨k, rfl⟩ : ∃ k, n = k + 1 := ⟨n - 1, by omega⟩
  obtain ⟨h1, h2⟩ := update_step_grounded s hp hv
  obtain ⟨h3, h4⟩ := grounded_applyUpdates k (s.transition .Update) h1 h2
  rw [applyUpdates]
  exact ⟨h4, h3⟩

/-- Witness for C10 amended: the freshly constructed Idle machine sits on
the floor with zero velocity; after one update it is descending and still
on the floor. -/
theorem grounded_always_descending_witness :
    initialMachine.posY = FLOOR ∧ initialMachine.velY ≥ 0 ∧ (1 : Nat) ≤ 1 ∧
    (applyUpdates 1 initialMachine).velY > 0 ∧
    (applyUpdates 1 initialMachine).posY = FLOOR :=
  ⟨by decide, by decide, by decide,
    (grounded_always_descending initialMachine 1 (by decide) (by decide)
      (by decide)).1,
    (grounded_always_descending initialMachine 1 (by decide) (by decide)
      (by decide)).2⟩

theorem gameLoopDrain_gt (a : ℚ) (h : FRAME_SIZE < a) :
    gameLoopDrain a =
      ((gameLoopDrain (a - FRAME_SIZE)).1 + 1, (gameLoopDrain (a - FRAME_SIZE)).2) := by
  rw [gameLoopDrain]
  simp [h]

theorem gameLoopDrain_le (a : ℚ) (h : ¬ FRAME_SIZE < a) :
    gameLoopDrain a = (0, a) := by
  rw [gameLoopDrain]
  simp [h]

/-- C5: the fixed-timestep drain performs exactly 3 logical updates on an
accumulator of 3.4 frame durations, leaving exactly 0.4 frame durations
(exact in rational arithmetic, hence within floating epsilon); in general
every update consumes exactly one frame duration and draining stops with
the residual at or below the frame duration. -/
theorem fixed_timestep_three_updates :
    gameLoopDrain (17 / 5 * FRAME_SIZE) = (3, 2 / 5 * FRAME_SIZE) ∧
    (∀ a : ℚ, ((gameLoopDrain a).1 : ℚ) * FRAME_SIZE + (gameLoopDrain a).2 = a) ∧
    (∀ a : ℚ, (gameLoopDrain a).2 ≤ FRAME_SIZE) := by
  have hinv : ∀ a : ℚ,
      ((gameLoopDrain a).1 : ℚ) * FRAME_SIZE + (gameLoopDrain a).2 = a ∧
      (gameLoopDrain a).2 ≤ FRAME_SIZE := by
    intro a
    induction a using gameLoopDrain.induct with
    | case1 a h ih =>
      rw [gameLoopDrain_gt a h]
      obtain ⟨ih1, ih2⟩ := ih
      constructor
      · push_cast
        nlinarith [ih1]
      · exact ih2
    | case2 a h =>
      rw [gameLoopDrain_le a h]
      constructor
      · simp
      · simpa using le_of_not_lt h
  refine ⟨?_, fun a => (hinv a).1, fun a => (hinv a).2⟩
  have e0 : (17 / 5 : ℚ) * FRAME_SIZE = 170 / 3 := by norm_num [FRAME_SIZE]
  have s1 : (170 / 3 : ℚ) - FRAME_SIZE = 40 := by norm_num [FRAME_SIZE]
  have s2 : (40 : ℚ) - FRAME_SIZE = 70 / 3 := by norm_num [FRAME_SIZE]
  have s3 : (70 / 3 : ℚ) - FRAME_SIZE = 20 / 3 := by norm_num [FRAME_SIZE]
  rw [e0, gameLoopDrain_gt _ (by norm_num [FRAME_SIZE]), s1,
    gameLoopDrain_gt _ (by norm_num [FRAME_SIZE]), s2,
    gameLoopDrain_gt _ (by norm_num [FRAME_SIZE]), s3,
    gameLoopDrain_le _ (by norm_num [FRAME_SIZE])]
  norm_num [FRAME_SIZE]

/-- C6: whenever the first bounding box of a platform overlapping the
character (in list order) exists, Land with that box top y fires exactly
when the character y velocity is strictly positive and its y position is
strictly above the platform y position, and KnockOut fires in every other
overlapping case. -/
theorem platform_collision_rule (p : Platform) (boyBox : Rect)
    (boyVelocityY boyPosY : Int) (box_to_land_on : Rect)
    (hfind : p.bounding_boxes.find?
        (fun bounding_box => boyBox.intersects bounding_box) = some box_to_land_on) :
    (p.check_intersection boyBox boyVelocityY boyPosY =
        some (.Land box_to_land_on.y) ↔
      boyVelocityY > 0 ∧ boyPosY < p.position.y) ∧
    (p.check_intersection boyBox boyVelocityY boyPosY = some .KnockOut ↔
      ¬ (boyVelocityY > 0 ∧ boyPosY < p.position.y)) := by
  simp only [Platform.check_intersection, hfind]
  split_ifs with hcond <;> simp_all

/-- Witness for C6: a one-box platform, a descending character above it:
the find succeeds and Land fires with the box top. -/
theorem platform_collision_rule_witness :
    (Platform.new [⟨⟨0, 0⟩, 60, 54⟩] ⟨0, 100⟩).bounding_boxes.find?
        (fun bounding_box => Rect.intersects ⟨⟨10, 90⟩, 20, 20⟩ bounding_box) =
      some ⟨⟨0, 100⟩, 60, 54⟩ ∧
    (Platform.new [⟨⟨0, 0⟩, 60, 54⟩] ⟨0, 100⟩).check_intersection
        ⟨⟨10, 90⟩, 20, 20⟩ 1 50 = some (.Land 100) :=
  ⟨by decide,
    ((platform_collision_rule (Platform.new [⟨⟨0, 0⟩, 60, 54⟩] ⟨0, 100⟩)
        ⟨⟨10, 90⟩, 20, 20⟩ 1 50 ⟨⟨0, 100⟩, 60, 54⟩ (by decide)).1).mpr
      (by decide)⟩

/-- C7: for either random draw, segment generation produces obstacles
whose rightmost right edge strictly exceeds the pre-generation timeline
plus the obstacle buffer, appends them to the existing obstacle list, and
sets the timeline to that rightmost edge. -/
theorem segment_generation_spec (w : Walk) (choice : Nat) (hc : choice < 2) :
    rightmost (next_segment_obstacles w.timeline choice w.stoneWidth w.stoneHeight) >
      w.timeline + OBSTACLE_BUFFER ∧
    (w.generate_next_segment choice).obstacles =
      w.obstacles ++
        next_segment_obstacles w.timeline choice w.stoneWidth w.stoneHeight ∧
    (w.generate_next_segment choice).timeline =
      rightmost (next_segment_obstacles w.timeline choice w.stoneWidth w.stoneHeight) := by
  refine ⟨?_, rfl, rfl⟩
  interval_cases choice <;>
    simp only [next_segment_obstacles, stone_and_platform, platform_and_stone,
      create_floating_platform, Platform.new, FLOATING_PLATFORM_BOUNDING_BOXES,
      rightmost, Obstacle.right, Platform.right, Rect.right, Rect.x, Rect.y,
      List.map_cons, List.map_nil, List.max?, List.foldl, List.getLast?,
      List.getLast, Option.getD, OBSTACLE_BUFFER, INITIAL_STONE_OFFSET,
      FIRST_PLATFORM, LOW_PLATFORM, HIGH_PLATFORM, STONE_ON_GROUND] <;>
    omega

/-- Witness for C7: a concrete walk and the draw 0. -/
theorem segment_generation_spec_witness :
    (0 : Nat) < 2 ∧
    rightmost (next_segment_obstacles (Walk.mk initialMachine [] 0 30 40).timeline 0
        (Walk.mk initialMachine [] 0 30 40).stoneWidth
        (Walk.mk initialMachine [] 0 30 40).stoneHeight) >
      (Walk.mk initialMachine [] 0 30 40).timeline + OBSTACLE_BUFFER :=
  ⟨by decide,
    (segment_generation_spec (Walk.mk initialMachine [] 0 30 40) 0 (by decide)).1⟩

/-- C8: restarting from GameOver reconstructs the world: the reset Walk
carries the fresh Idle character with the session-start context (starting
position, zero velocity, frame 0), its obstacles are exactly the starting
segment generated at offset 0, the whole Walk equals the session-start
Walk for the same assets, and the result is independent of the mutable
state of the replaced Walk. -/
theorem restart_reconstruction (w : Walk) :
    (Walk.reset w).boy.tag = .Idle ∧
    (Walk.reset w).boy.context = initialContext ∧
    initialContext =
      ⟨0, ⟨STARTING_POINT, FLOOR⟩, ⟨0, 0⟩⟩ ∧
    (Walk.reset w).obstacles = stone_and_platform 0 w.stoneWidth w.stoneHeight ∧
    Walk.reset w = initialWalk w.stoneWidth w.stoneHeight ∧
    (∀ w₂ : Walk, w₂.stoneWidth = w.stoneWidth → w₂.stoneHeight = w.stoneHeight →
      Walk.reset w₂ = Walk.reset w) ∧
    gameOverNewGame w = .Ready (initialWalk w.stoneWidth w.stoneHeight) := by
  refine ⟨rfl, rfl, rfl, rfl, rfl, ?_, ?_⟩
  · intro w₂ hw hh
    simp only [Walk.reset, RedHatBoy.reset, hw, hh]
  · simp only [gameOverNewGame, Walk.reset, RedHatBoy.reset, initialWalk]

/-- Witness for C8: two different game-over worlds over the same stone
asset reset to the same reconstructed world. -/
theorem restart_reconstruction_witness :
    (Walk.mk (.KnockedOut ⟨29, ⟨7, FLOOR⟩, ⟨0, 20⟩⟩) [] 55 30 40).stoneWidth =
      (Walk.mk initialMachine [] 0 30 40).stoneWidth ∧
    (Walk.mk (.KnockedOut ⟨29, ⟨7, FLOOR⟩, ⟨0, 20⟩⟩) [] 55 30 40).stoneHeight =
      (Walk.mk initialMachine [] 0 30 40).stoneHeight ∧
    Walk.reset (Walk.mk (.KnockedOut ⟨29, ⟨7, FLOOR⟩, ⟨0, 20⟩⟩) [] 55 30 40) =
      Walk.reset (Walk.mk initialMachine [] 0 30 40) :=
  ⟨rfl, rfl,
    (restart_reconstruction (Walk.mk initialMachine [] 0 30 40)).2.2.2.2.2.1
      (Walk.mk (.KnockedOut ⟨29, ⟨7, FLOOR⟩, ⟨0, 20⟩⟩) [] 55 30 40) rfl rfl⟩

/-- C1: for every character state S and event E whose (state, event) pair
is not listed in the transition table, transition(S, E) returns S
unchanged: the machine is total with an implicit self-loop for all
unhandled combinations. -/
theorem transition_self_loop_totality (s : RedHatBoyStateMachine) (e : Event)
    (h : s.handled e = false) : s.transition e = s := by
  cases s <;> cases e <;>
    simp_all [RedHatBoyStateMachine.handled, RedHatBoyStateMachine.transition]

/-- Witness for C1: the Idle state ignores a Jump event. -/
theorem transition_self_loop_totality_witness :
    (RedHatBoyStateMachine.Idle ⟨0, ⟨0, 0⟩, ⟨0, 0⟩⟩).handled .Jump = false ∧
    (RedHatBoyStateMachine.Idle ⟨0, ⟨0, 0⟩, ⟨0, 0⟩⟩).transition .Jump =
      RedHatBoyStateMachine.Idle ⟨0, ⟨0, 0⟩, ⟨0, 0⟩⟩ :=
  ⟨by decide, transition_self_loop_totality _ _ (by decide)⟩

end WalkTheDog
